import Mathlib

/-!
Shallow embedding of `src/sap_test/src/main.rs` (crate `sap_test`), a minimal
SAP OData HTTP client.  Rust strings are UTF-8 byte sequences; credentials and
header values are modelled as lists of byte values (`List Nat`, each value the
`u8` it stands for).  The external HTTP transport and the JSON grammar of the
`serde_json` library are parameters of the embedded operations; everything the
crate itself computes (header construction, base64, URL formatting, control
flow of `get_data` and `main`) is embedded directly from the source.
-/

namespace SAPAPI

/-- Byte view of an ASCII string literal: the code points of its characters,
which agree with the UTF-8 bytes for ASCII text. Used only on ASCII literals
appearing in the source. -/
def strBytes (s : String) : List Nat := s.data.map Char.toNat

/-- The standard base64 alphabet, `A-Z a-z 0-9 + /`, as byte values.
This is the (padded) alphabet used by `base64::encode`. -/
def base64Alphabet : List Nat :=
  strBytes "ABCDEFGHIJKLMNOPQRSTUVWXYZabcdefghijklmnopqrstuvwxyz0123456789+/"

/-- The alphabet byte for a 6-bit group. Indices are always `< 64` at use
sites; the default is arbitrary. -/
def b64char (i : Nat) : Nat := base64Alphabet.getD i 65

/-- Base64-encode a byte list, three input bytes to four output bytes, with
`=` (byte 61) padding — the standard padded encoding of `base64::encode`.
Inputs are `u8` values, already `< 256`. -/
def base64Chunks : List Nat → List Nat
  | [] => []
  | [a] =>
      [b64char (a / 4), b64char (a % 4 * 16), 61, 61]
  | [a, b] =>
      [b64char (a / 4), b64char (a % 4 * 16 + b / 16), b64char (b % 16 * 4), 61]
  | a :: b :: c :: rest =>
      b64char (a / 4) :: b64char (a % 4 * 16 + b / 16) ::
      b64char (b % 16 * 4 + c / 64) :: b64char (c % 64) :: base64Chunks rest

/-- `base64::encode` on a byte list. The `% 256` records that the Rust input
bytes are `u8`; on byte values it is the identity. -/
def base64 (bs : List Nat) : List Nat := base64Chunks (bs.map (· % 256))

/-- Validity of one byte of an HTTP header value, as checked by
`HeaderValue::from_str` (reached through `str::parse` in the source): a `u8`
is valid when it is at least 32 and not 127, or is the horizontal tab 9. -/
def isValidHeaderByte (b : Nat) : Bool := (32 ≤ b && b != 127) || b == 9

/-- A header value string parses iff every byte is valid header content. -/
def headerValueValid (bs : List Nat) : Bool := bs.all isValidHeaderByte

/-- A byte that is header-safe ASCII: an ASCII byte that is valid header
content. -/
def isHeaderSafeAscii (b : Nat) : Bool := b < 128 && isValidHeaderByte b

/-- The client: a base URL and the prepared header map
(`struct SAPODataService`). Headers are an insertion-ordered name/value list,
as inserted into the `reqwest::header::HeaderMap`. -/
structure SAPODataService where
  service_url : String
  headers : List (String × List Nat)
deriving Repr, DecidableEq

/-- `SAPODataService::new(service_url, username, password)`.  Builds the
`Accept` header, concatenates `username ++ ":" ++ password`
(`format!("\x7b\x7d:\x7b\x7d", ...)`), base64-encodes it, prefixes
`"Basic "`, and inserts both headers.  Each `.parse().unwrap()` is embedded
as a validity check whose failure is `none` (the process abort of `unwrap`);
`some` is the constructed client. Byte 58 is `:`. -/
def new (service_url : String) (username password : List Nat) :
    Option SAPODataService :=
  let accept := strBytes "application/json"
  if headerValueValid accept then
    let credentials := username ++ 58 :: password
    let encoded_credentials := base64 credentials
    let authorization := strBytes "Basic " ++ encoded_credentials
    if headerValueValid authorization then
      some { service_url := service_url
             headers := [("Accept", accept), ("Authorization", authorization)] }
    else none
  else none

/-- A JSON value tree (`serde_json::Value`): null, boolean, number, string,
array, or object.  Numbers are embedded as integers; no claim depends on
non-integral numerics.  Objects are insertion-ordered key/value lists,
standing for the `HashMap`/map the deserializer produces. -/
inductive Json where
  | null : Json
  | bool (b : Bool) : Json
  | num (n : Int) : Json
  | str (s : String) : Json
  | arr (elems : List Json) : Json
  | obj (fields : List (String × Json)) : Json

/-- The URL built at the top of `get_data`:
`format!("\x7b\x7d/\x7b\x7d", self.service_url, endpoint)`, i.e. literal
concatenation with one inserted slash. -/
def requestUrl (service_url endpoint : String) : String :=
  service_url ++ "/" ++ endpoint

/-- An HTTP response as delivered by the transport: a status code and a raw
body.  `get_data` never reads the status. -/
structure HttpResponse where
  status : Nat
  body : List Nat
deriving Repr, DecidableEq

/-- The network: what `send()` does for a given URL and header set.  `none`
is a transport-level failure (the first `?` in `get_data`); `some` is a
received response, whatever its status code. -/
def Transport : Type := String → List (String × List Nat) → Option HttpResponse

/-- The JSON grammar: what the external `serde_json` parser makes of a raw
body.  `none` is a body that is not valid JSON.  `get_data` is parametric in
it; the embedding adds only the typed requirement of
`json::<HashMap<String, Value>>` (top-level object), in `decodeMap`. -/
def Decoder : Type := List Nat → Option Json

/-- Deserializing a body into `HashMap<String, serde_json::Value>`: parse as
JSON, then require a top-level object; anything else is a format error. -/
def decodeMap (decode : Decoder) (body : List Nat) :
    Option (List (String × Json)) :=
  match decode body with
  | some (Json.obj fields) => some fields
  | _ => none

/-- The two failure sources of `get_data`, both surfaced in the source as the
single `reqwest::Error` type: a transport failure from `send()?`, or a
deserialization failure from `.json::<...>()?`. -/
inductive GetDataError where
  | transport : GetDataError
  | responseFormat : GetDataError
deriving Repr, DecidableEq

/-- `SAPODataService::get_data(&self, endpoint)`.  Formats the URL, issues one
GET with the stored headers through the transport, deserializes the body into
a string-to-JSON map, and returns it; each `?` short-circuits to the error
arm.  `&self` is embedded state-passing style: the client after the call is
returned alongside the result (the method takes `&self`, so it is unchanged).
-/
def get_data (svc : SAPODataService) (endpoint : String) (decode : Decoder)
    (transport : Transport) :
    Except GetDataError (List (String × Json)) × SAPODataService :=
  let url := requestUrl svc.service_url endpoint
  match transport url svc.headers with
  | none => (Except.error GetDataError.transport, svc)
  | some response =>
      match decodeMap decode response.body with
      | none => (Except.error GetDataError.responseFormat, svc)
      | some m => (Except.ok m, svc)

mutual

/-- Rendering of a `serde_json::Value` by `println!("\x7b:?\x7d", values)` —
an executable stand-in for the `Debug` formatting of the library; no claim
depends on the exact text, only on whether a line is printed. -/
def renderJson : Json → String
  | Json.null => "Null"
  | Json.bool b => "Bool(" ++ toString b ++ ")"
  | Json.num n => "Number(" ++ toString n ++ ")"
  | Json.str s => "String(" ++ s ++ ")"
  | Json.arr elems => "Array [" ++ renderJsonList elems ++ "]"
  | Json.obj fields => "Object [" ++ renderJsonFields fields ++ "]"

/-- Comma-separated rendering of array elements. -/
def renderJsonList : List Json → String
  | [] => ""
  | [x] => renderJson x
  | x :: xs => renderJson x ++ ", " ++ renderJsonList xs

/-- Comma-separated rendering of object fields. -/
def renderJsonFields : List (String × Json) → String
  | [] => ""
  | [(k, v)] => k ++ ": " ++ renderJson v
  | (k, v) :: xs => k ++ ": " ++ renderJson v ++ ", " ++ renderJsonFields xs
end

/-- Rendering of the error by `println!("Error: \x7b:?\x7d", e)` — a
human-readable stand-in for the `Debug` output of `reqwest::Error`. -/
def renderError : GetDataError → String
  | GetDataError.transport => "reqwest::Error (request)"
  | GetDataError.responseFormat => "reqwest::Error (decode)"

/-- The `match` in `main` on the result of `get_data`: the lines printed.
`Ok(data)`: look up `"value"`; print its rendering when present, nothing when
absent.  `Err(e)`: print the error message. -/
def mainPrint (result : Except GetDataError (List (String × Json))) :
    List String :=
  match result with
  | Except.ok data =>
      match data.lookup "value" with
      | some values => [renderJson values]
      | none => []
  | Except.error e => ["Error: " ++ renderError e]

/-- The base URL literal in `main`. -/
def mainServiceUrl : String := "https://your-sap-system-url/odata/service"

/-- The username literal in `main`, as bytes. -/
def mainUsername : List Nat := strBytes "your_username"

/-- The password literal in `main`, as bytes. -/
def mainPassword : List Nat := strBytes "your_password"

/-- `fn main()`: construct the client with the literal configuration, fetch
`"entity"`, and print per `mainPrint`.  `none` is a process abort (an
`unwrap` panic inside `new`); otherwise the printed lines are returned with
the process exit code, which is 0 because `main` returns `()` on every path.
-/
def mainRun (decode : Decoder) (transport : Transport) :
    Option (List String × Nat) :=
  match new mainServiceUrl mainUsername mainPassword with
  | none => none
  | some sap_service =>
      some (mainPrint (get_data sap_service "entity" decode transport).1, 0)

/-! Helper lemmas: the base64 output is always valid header content, so the
two `unwrap`s in `new` never fire and construction always succeeds. -/

/-- Every byte of the base64 alphabet is valid header content. -/
theorem base64Alphabet_all_valid :
    base64Alphabet.all isValidHeaderByte = true := by decide

/-- Every byte produced by alphabet indexing is valid header content. -/
theorem b64char_valid (i : Nat) : isValidHeaderByte (b64char i) = true := by
  rw [b64char, List.getD_eq_getElem?_getD]
  rcases h : base64Alphabet[i]? with _ | x
  · decide
  · simp only [Option.getD_some]
    exact List.all_eq_true.mp base64Alphabet_all_valid x (List.getElem?_mem h)

/-- Every byte of an encoded chunk sequence is valid header content (the
padding byte 61, `=`, included). -/
theorem base64Chunks_valid :
    ∀ bs : List Nat, (base64Chunks bs).all isValidHeaderByte = true
  | [] => rfl
  | [a] => by
      simp only [base64Chunks, List.all_cons, List.all_nil, b64char_valid,
        Bool.true_and, Bool.and_true]
      decide
  | [a, b] => by
      simp only [base64Chunks, List.all_cons, List.all_nil, b64char_valid,
        Bool.true_and, Bool.and_true]
      decide
  | a :: b :: c :: rest => by
      simp only [base64Chunks, List.all_cons, b64char_valid, Bool.true_and]
      exact base64Chunks_valid rest

/-- The base64 encoding of any byte list is valid header content. -/
theorem base64_valid (bs : List Nat) : headerValueValid (base64 bs) = true :=
  base64Chunks_valid _

/-- The whole Authorization value, `"Basic "` plus a base64 encoding, is valid
header content, whatever the credentials. -/
theorem authorization_valid (creds : List Nat) :
    headerValueValid (strBytes "Basic " ++ base64 creds) = true := by
  unfold headerValueValid
  rw [List.all_append]
  have h := base64_valid creds
  unfold headerValueValid at h
  rw [h]
  decide

/-- `new` always succeeds, with exactly the `Accept` and `Authorization`
headers; both `unwrap`s pass because both header values are valid. -/
theorem new_eq (url : String) (u p : List Nat) :
    new url u p = some
      ⟨url, [("Accept", strBytes "application/json"),
             ("Authorization", strBytes "Basic " ++ base64 (u ++ 58 :: p))]⟩ := by
  have h1 : headerValueValid (strBytes "application/json") = true := by decide
  have h2 := authorization_valid (u ++ 58 :: p)
  simp [new, h1, h2]

/-- Deserialization into a map succeeds exactly on a body the JSON grammar
reads as a top-level object, and returns all its fields. -/
theorem decodeMap_eq_some (decode : Decoder) (body : List Nat)
    (m : List (String × Json)) :
    decodeMap decode body = some m ↔ decode body = some (Json.obj m) := by
  unfold decodeMap
  rcases h : decode body with _ | j
  · simp
  · cases j <;> simp

/-- `get_data` returns the client unchanged on every path. -/
theorem get_data_snd (svc : SAPODataService) (ep : String) (decode : Decoder)
    (transport : Transport) : (get_data svc ep decode transport).2 = svc := by
  simp only [get_data]
  rcases transport (requestUrl svc.service_url ep) svc.headers with _ | resp
  · rfl
  · dsimp only
    rcases decodeMap decode resp.body with _ | m <;> rfl

/-- Claim C1: for every username and password, the client built by
`new(base_url, username, password)` carries an Authorization header whose
value is the string `"Basic "` followed by the standard padded base64
encoding of `username ++ ":" ++ password`; in particular username `admin`
and password `secret` give the header value `Basic YWRtaW46c2VjcmV0`. -/
theorem claim_C1 :
    (∀ (url : String) (u p : List Nat), ∃ c, new url u p = some c ∧
      c.headers.lookup "Authorization"
        = some (strBytes "Basic " ++ base64 (u ++ 58 :: p)))
    ∧ (∃ c, new "https://h" (strBytes "admin") (strBytes "secret") = some c ∧
        c.headers.lookup "Authorization"
          = some (strBytes "Basic YWRtaW46c2VjcmV0")) := by
  constructor
  · intro url u p
    exact ⟨_, new_eq url u p, by simp [List.lookup]⟩
  · exact ⟨_, new_eq _ _ _, by decide⟩

/-- Claim C2: the request target of `get_data` is exactly
`base_url ++ "/" ++ endpoint`, one slash always inserted, no escaping or
normalization — a base URL already ending in `/` yields a double slash — and
the outcome of `get_data` depends on the transport only at that one URL with
the stored headers. -/
theorem claim_C2 :
    (∀ base ep, requestUrl base ep = base ++ "/" ++ ep)
    ∧ requestUrl "https://h/odata/" "entity" = "https://h/odata//entity"
    ∧ (∀ (svc : SAPODataService) (ep : String) (decode : Decoder) (t : Transport),
        get_data svc ep decode t = get_data svc ep decode
          (fun u h => if u = requestUrl svc.service_url ep ∧ h = svc.headers
                      then t u h else none)) := by
  refine ⟨?_, ?_, ?_⟩
  · intro base ep
    rfl
  · decide
  · intro svc ep decode t
    simp [get_data]

/-- Claim C3 counterexample: with a carriage return (byte 13) in the username
and a line feed (byte 10) in the password, constructing the client does not
fail at all — it succeeds and returns a client, so no `ConfigurationError`
value is ever produced, contrary to the claim. -/
theorem claim_C3_counterexample :
    (new "https://cx" [99, 13] [10, 100]).isSome = true := by decide

/-- Claim C3 as amended: for every username and password — including ones
with CR, LF or other non-header-safe bytes — constructing the client
succeeds and returns a client value, never aborting the process and never
needing a configuration-error path, because the credential bytes are base64
encoded before they reach a header value. -/
theorem claim_C3_amended :
    ∀ (url : String) (u p : List Nat), (new url u p).isSome = true := by
  intro url u p
  rw [new_eq]
  rfl

/-- Claim C4: `get_data` succeeds exactly when the transport delivered a
response whose body the JSON grammar reads as a top-level object, and then
returns the full parsed mapping (all keys); otherwise the single
result-or-error outcome is in its error arm, with no retry or internal
recovery. -/
theorem claim_C4 :
    ∀ (decode : Decoder) (transport : Transport) (svc : SAPODataService)
      (ep : String),
      (∀ m, ((get_data svc ep decode transport).1 = Except.ok m ↔
        ∃ resp, transport (requestUrl svc.service_url ep) svc.headers
            = some resp ∧
          decode resp.body = some (Json.obj m)))
      ∧ ((∃ e, (get_data svc ep decode transport).1 = Except.error e) ∨
         (∃ m, (get_data svc ep decode transport).1 = Except.ok m)) := by
  intro decode transport svc ep
  simp only [get_data]
  rcases transport (requestUrl svc.service_url ep) svc.headers with _ | resp
  · constructor
    · intro m
      dsimp only
      simp
    · exact Or.inl ⟨GetDataError.transport, rfl⟩
  · dsimp only
    rcases hd : decodeMap decode resp.body with _ | m2
    · constructor
      · intro m
        dsimp only
        constructor
        · intro h
          exact Except.noConfusion h
        · rintro ⟨resp2, hr2, hd2⟩
          injection hr2 with hr2
          subst hr2
          exfalso
          have h3 := (decodeMap_eq_some decode resp.body m).mpr hd2
          rw [hd] at h3
          exact Option.noConfusion h3
      · exact Or.inl ⟨GetDataError.responseFormat, rfl⟩
    · constructor
      · intro m
        dsimp only
        constructor
        · intro h
          injection h with h
          refine ⟨resp, rfl, ?_⟩
          have h2 := (decodeMap_eq_some decode resp.body m2).mp hd
          rw [← h]
          exact h2
        · rintro ⟨resp2, hr2, hd2⟩
          injection hr2 with hr2
          subst hr2
          have h3 := (decodeMap_eq_some decode resp.body m).mpr hd2
          rw [hd] at h3
          injection h3 with h3
          rw [h3]
      · exact Or.inr ⟨m2, rfl⟩

/-- Claim C5: the outcome of `get_data` never depends on the status code of
the response: rewriting the status of every delivered response arbitrarily
(first conjunct), or comparing a fixed-body server answering 500 against one
answering 200 (second conjunct), leaves the result unchanged; the body alone
is parsed. -/
theorem claim_C5 :
    (∀ (decode : Decoder) (svc : SAPODataService) (ep : String) (t : Transport)
      (newStatus : HttpResponse → Nat),
      get_data svc ep decode
          (fun u h => (t u h).map (fun r => ⟨newStatus r, r.body⟩))
        = get_data svc ep decode t)
    ∧ (∀ (decode : Decoder) (svc : SAPODataService) (ep : String)
        (body : List Nat),
        get_data svc ep decode (fun _ _ => some ⟨500, body⟩)
          = get_data svc ep decode (fun _ _ => some ⟨200, body⟩)) := by
  constructor
  · intro decode svc ep t newStatus
    simp only [get_data]
    rcases t (requestUrl svc.service_url ep) svc.headers with _ | resp
    · rfl
    · rfl
  · intro decode svc ep body
    rfl

/-- Claim C6: on a successful `get_data` result, the entry point prints the
rendering of the `"value"` field exactly when the key `"value"` is present in
the returned mapping, and prints nothing when it is absent; in particular for
the mapping from body `{"other": "x"}` nothing is printed and no error is
raised. -/
theorem claim_C6 :
    (∀ data : List (String × Json),
      mainPrint (Except.ok data) = ((data.lookup "value").map renderJson).toList)
    ∧ mainPrint (Except.ok [("other", Json.str "x")]) = [] := by
  constructor
  · intro data
    simp only [mainPrint]
    rcases data.lookup "value" with _ | v <;> rfl
  · rfl

/-- Claim C7: on every error from `get_data` the entry point prints a
human-readable error message, and on every execution path — any transport,
any body — `main` runs to completion (no abort) with exit status 0. -/
theorem claim_C7 :
    (∀ e, mainPrint (Except.error e) = ["Error: " ++ renderError e])
    ∧ (∀ (decode : Decoder) (transport : Transport),
        ∃ printed, mainRun decode transport = some (printed, 0)) := by
  constructor
  · intro e
    rfl
  · intro decode transport
    have h := new_eq mainServiceUrl mainUsername mainPassword
    simp only [mainRun, h]
    exact ⟨_, rfl⟩

/-- Claim C8: for every username and password made only of header-safe ASCII
bytes, `new` never fails: both header insertions succeed and a client value
is returned. -/
theorem claim_C8 :
    ∀ (url : String) (u p : List Nat),
      u.all isHeaderSafeAscii = true → p.all isHeaderSafeAscii = true →
      (new url u p).isSome = true := by
  intro url u p _ _
  rw [new_eq]
  rfl

/-- Claim C8 witness: the hypotheses hold and the conclusion evaluates at
username `admin`, password `secret`. -/
theorem claim_C8_witness :
    (strBytes "admin").all isHeaderSafeAscii = true ∧
    (strBytes "secret").all isHeaderSafeAscii = true ∧
    (new "https://w" (strBytes "admin") (strBytes "secret")).isSome = true :=
  ⟨by decide, by decide, claim_C8 "https://w" _ _ (by decide) (by decide)⟩

/-- Claim C9: `get_data` keeps no hidden state: the client comes back
unchanged from a call (base URL and headers included), and a second call on
the returned client, against the same unchanged transport, yields a
structurally equal result. -/
theorem claim_C9 :
    ∀ (svc : SAPODataService) (ep : String) (decode : Decoder)
      (transport : Transport),
      (get_data (get_data svc ep decode transport).2 ep decode transport).1
        = (get_data svc ep decode transport).1
      ∧ (get_data svc ep decode transport).2 = svc := by
  intro svc ep decode transport
  rw [get_data_snd]
  exact ⟨rfl, rfl⟩

/-- Claim C10: for every username and password — CR, LF, colons, arbitrary
bytes included — `new` succeeds without aborting: the only headers are the
constant `Accept: application/json` and the `Basic` header holding the
base64 encoding of the credentials, and every header value is valid header
content, so no raw credential byte ever reaches a header value. -/
theorem claim_C10 :
    ∀ (url : String) (u p : List Nat), ∃ c, new url u p = some c ∧
      c.headers = [("Accept", strBytes "application/json"),
                   ("Authorization", strBytes "Basic " ++ base64 (u ++ 58 :: p))] ∧
      c.headers.all (fun kv => headerValueValid kv.2) = true := by
  intro url u p
  refine ⟨_, new_eq url u p, rfl, ?_⟩
  simp only [List.all_cons, List.all_nil, Bool.and_true]
  rw [authorization_valid]
  decide


end SAPAPI
